import Mathlib

/-!
# Verification of the bigshot job-orchestration subsystem

Shallow embedding of the job management, worker-loop, cancellation,
broadcast and reconnection logic of the bigshot backend
(`app/services/job_manager.py`, `app/tasks/domain_enumeration.py`,
`app/services/websocket.py`, `app/services/enumeration.py`), together
with proofs of its stated behavioural properties.

External effects (the task queue, the Redis broker, the database commit)
are modelled as explicit oracle parameters: each call site that can
observe an external outcome takes that outcome as an argument, exactly
where the Python code observes it.
-/

namespace Bigshot

/-! ## JSON values

`json.loads` / `json.dumps` are the Python standard library; the code
under verification only distinguishes (a) an absent result, (b) a result
string that fails to decode (`json.JSONDecodeError`), and (c) a decoded
JSON object (a dict).  We model a decoded JSON value structurally; a
stored `result` field is either undecodable or a decoded value. -/

inductive JVal where
  | jnull : JVal
  | jbool : Bool → JVal
  | jnum : Int → JVal
  | jstr : String → JVal
  | jarr : List JVal → JVal
  | jobj : List (String × JVal) → JVal

/-- Python dict keys are unique; `d.get(k)` is association-list lookup. -/
def JVal.getKey : List (String × JVal) → String → Option JVal
  | [], _ => none
  | (k, v) :: rest, key => if k = key then some v else JVal.getKey rest key

/-- Python `d.pop(k, None)` removes the binding of `k` (dict keys are
unique, so removing every binding of `k` coincides with removing the one
binding). -/
def JVal.popKey : List (String × JVal) → String → List (String × JVal)
  | [], _ => []
  | (k, v) :: rest, key =>
      if k = key then JVal.popKey rest key
      else (k, v) :: JVal.popKey rest key

/-- A stored `Job.result` string, at the granularity the code observes it:
`json.loads` either raises `JSONDecodeError` or returns a value. -/
inductive RawResult where
  | malformed : String → RawResult
  | decoded : JVal → RawResult

/-! ## The Job entity (`app/models/models.py`) -/

structure Job where
  id : Nat
  type : String
  domain : Option String
  status : String
  progress : Nat
  result : Option RawResult
  error_message : Option String

/-! ## Cancellation Controller (`JobManager.cancel_job`,
`app/services/job_manager.py` lines 55-86)

The revoke call to the queue (`celery_app.control.revoke`) is external:
it can succeed, raise, or target a task id the queue no longer knows
(celery silently accepts those).  Its outcome is an oracle argument. -/

inductive RevokeOutcome where
  | success : RevokeOutcome
  | raised : String → RevokeOutcome
  | unknownTaskId : RevokeOutcome
deriving DecidableEq

/-- `task_cancelled` as computed by `cancel_job`: a task id is extracted
from the decoded result and `revoke` is attempted; any exception
(decode error or revoke failure) is swallowed by the bare
`except (json.JSONDecodeError, Exception)`. -/
def taskCancelledFlag (result : Option RawResult) (revoke : RevokeOutcome) : Bool :=
  match result with
  | some (RawResult.decoded (JVal.jobj fields)) =>
      match JVal.getKey fields "task_id" with
      | some _ =>
          match revoke with
          | RevokeOutcome.raised _ => false
          | _ => true
      | none => false
  | _ => false

/-- `JobManager.cancel_job`.  Returns the (possibly updated) job row and
the boolean result.  A missing job or a job outside
`['pending', 'running']` returns `False` with nothing written; otherwise
the revoke is attempted (its outcome discarded), the job is persisted
with `status='cancelled'` and `error_message='Job cancelled by user'`,
and `True` is returned. -/
def cancel_job (job : Option Job) (revoke : RevokeOutcome) :
    Option Job × Bool :=
  match job with
  | none => (none, false)
  | some j =>
      if j.status = "pending" ∨ j.status = "running" then
        let _ := taskCancelledFlag j.result revoke
        (some { j with status := "cancelled",
                       error_message := some "Job cancelled by user" }, true)
      else
        (some j, false)

/-! ## Result retrieval (`JobManager.get_job_results`,
`app/services/job_manager.py` lines 161-179) -/

/-- The empty result payload returned for an absent or undecodable
stored result. -/
def emptyResultPayload : JVal :=
  JVal.jobj [("total_found", JVal.jnum 0), ("domains_found", JVal.jarr [])]

/-- `JobManager.get_job_results`: `None` for a missing job or one whose
status is not `completed`; otherwise the decoded result with the
internal `task_id` key removed, defaulting to the empty payload when the
result is absent or fails to decode.  Only `json.JSONDecodeError` is
caught; a result decoding to a non-dict makes `.pop` raise an
`AttributeError` that propagates (`Except.error`). -/
def get_job_results (job : Option Job) : Except String (Option JVal) :=
  match job with
  | none => Except.ok none
  | some j =>
      if j.status = "completed" then
        match j.result with
        | none => Except.ok (some emptyResultPayload)
        | some (RawResult.malformed _) => Except.ok (some emptyResultPayload)
        | some (RawResult.decoded v) =>
            match v with
            | JVal.jobj fields =>
                Except.ok (some (JVal.jobj (JVal.popKey fields "task_id")))
            | _ => Except.error "AttributeError: pop"
      else
        Except.ok none

/-! ## Worker loop (`enumerate_domains_task`,
`app/tasks/domain_enumeration.py` lines 19-210)

The task iterates the N×M (domain, source) pairs sequentially.  The
body that processes one pair (API lookup plus upserting the returned
subdomains) performs external I/O; it is modelled by an oracle
`outcome : String → String → Except String (List DomainResult)` whose
`error` case is an exception raised while processing that pair — caught
by the per-pair `except Exception` handler.  Code after the loop
(`db.session.commit` and the final result write) can also raise; an
exception escaping there is the `postLoopExc` oracle, handled by the
task's outer `except` which persists `status='failed'` and re-raises. -/

structure DomainResult where
  subdomain : String
  source : String
  root_domain : String
  existing : Bool

/-- The JSON entry appended to `all_results` for one subdomain
(`"existing": True` is added only for an already-known record). -/
def DomainResult.toJson (r : DomainResult) : JVal :=
  if r.existing then
    JVal.jobj [("subdomain", JVal.jstr r.subdomain),
               ("source", JVal.jstr r.source),
               ("root_domain", JVal.jstr r.root_domain),
               ("existing", JVal.jbool true)]
  else
    JVal.jobj [("subdomain", JVal.jstr r.subdomain),
               ("source", JVal.jstr r.source),
               ("root_domain", JVal.jstr r.root_domain)]

/-- `int((completed_tasks / total_tasks) * 100)`.  Python evaluates this
through float true division and truncation; we model it as natural floor
division `completed * 100 / total`.  (IEEE rounding can make Python's
value one less than the floor at isolated inputs, e.g. 29/100; every
statement below either evaluates this at inputs where the float
computation is exact, or uses only its monotonicity in `completed`,
which both computations share.) -/
def pyProgress (completed total : Nat) : Nat := completed * 100 / total

/-- One progress report: the `current_task.update_state(PROGRESS, meta)`
call and the `broadcast_job_update_task.delay(job_id, 'progress', ...)`
broadcast, which the code emits together with the same counters at the
top of each loop iteration. -/
structure ProgressEvent where
  current : Nat
  total : Nat
  domain : String
  source : String
  progress : Nat
deriving DecidableEq

/-- Mutable state threaded through the pair loop: `completed_tasks`,
`all_results`, the reports emitted so far, the values written to
`job.progress` so far (all while `status='running'`), and the current
value of the `job.progress` column. -/
structure LoopState where
  completed : Nat
  results : List DomainResult
  events : List ProgressEvent
  progressWrites : List Nat
  curProgress : Nat

/-- The nested `for domain in domains: for source in sources:` iteration
order. -/
def buildPairs (domains sources : List String) : List (String × String) :=
  domains.flatMap fun d => sources.map fun s => (d, s)

/-- What one pair contributes to `all_results`: the returned records on
success, nothing when the pair's processing raised (the exception is
caught and logged by the per-pair `except Exception` handler). -/
def pairResults (outcome : String → String → Except String (List DomainResult))
    (d s : String) : List DomainResult :=
  match outcome d s with
  | Except.ok rs => rs
  | Except.error _ => []

/-- The per-pair loop.  The progress write and the progress report
happen first (inside the `try`), then the pair is processed; an
exception from processing is caught, and `completed_tasks += 1` runs in
both the success path and the `except` handler, so every iteration
advances the same way apart from the results it contributes. -/
def runLoop (outcome : String → String → Except String (List DomainResult))
    (total : Nat) : List (String × String) → LoopState → LoopState
  | [], st => st
  | (d, s) :: rest, st =>
      let p := pyProgress st.completed total
      let ev : ProgressEvent :=
        { current := st.completed, total := total, domain := d, source := s,
          progress := p }
      runLoop outcome total rest
        { completed := st.completed + 1,
          results := st.results ++ pairResults outcome d s,
          events := st.events ++ [ev],
          progressWrites := st.progressWrites ++ [p], curProgress := p }

/-- The final `job.result` JSON written on completion. -/
def finalResultJson (results : List DomainResult) : JVal :=
  JVal.jobj
    [("total_found", JVal.jnum results.length),
     ("new_domains", JVal.jnum (results.filter (fun r => !r.existing)).length),
     ("updated_domains", JVal.jnum (results.filter (fun r => r.existing)).length),
     ("domains_found", JVal.jarr ((results.take 100).map DomainResult.toJson))]

/-- Observable outcome of one run of `enumerate_domains_task`. -/
structure WorkerRun where
  finalJob : Option Job
  completedTasks : Nat
  events : List ProgressEvent
  runningProgressWrites : List Nat
  results : List DomainResult
  finalBroadcast : Option String
  raised : Option String

/-- `enumerate_domains_task`.  A missing job raises (`raise Exception`),
and the outer handler's re-fetch finds nothing to mark failed.
Otherwise the job is set `running` with `progress=0`, the pair loop
runs, and either the final-result write succeeds (`status='completed'`,
`progress=100`) or a post-loop exception is caught, persisted as
`status='failed'` with `error_message`, and re-raised. -/
def enumerate_domains_task (job : Option Job) (domains sources : List String)
    (outcome : String → String → Except String (List DomainResult))
    (postLoopExc : Option String) : WorkerRun :=
  match job with
  | none =>
      { finalJob := none, completedTasks := 0, events := [],
        runningProgressWrites := [], results := [],
        finalBroadcast := some "failed", raised := some "Job not found" }
  | some j =>
      let total := domains.length * sources.length
      let jRunning : Job := { j with status := "running", progress := 0 }
      let st := runLoop outcome total (buildPairs domains sources)
        { completed := 0, results := [], events := [], progressWrites := [],
          curProgress := 0 }
      match postLoopExc with
      | some e =>
          { finalJob := some { jRunning with
              status := "failed", progress := st.curProgress,
              error_message := some e },
            completedTasks := st.completed, events := st.events,
            runningProgressWrites := 0 :: st.progressWrites,
            results := st.results, finalBroadcast := some "failed",
            raised := some e }
      | none =>
          { finalJob := some { jRunning with
              status := "completed", progress := 100,
              result := some (RawResult.decoded (finalResultJson st.results)) },
            completedTasks := st.completed, events := st.events,
            runningProgressWrites := 0 :: st.progressWrites,
            results := st.results, finalBroadcast := some "completed",
            raised := none }

/-! ## Broadcast Service (`WebSocketService`,
`app/services/websocket.py`)

`broadcast_job_update` (lines 345-384): publish to Redis when the
client is marked available; a `redis.ConnectionError` from the publish
marks it unavailable, logs a warning and falls through; any other
publish exception only logs an error.  When the client is (now) marked
unavailable the event is emitted directly to the job's room and to the
`all_jobs` room, with a debug log.  The whole body sits in a
`try/except` that logs and swallows, so no exception ever propagates to
the caller — the model is a total function. -/

inductive LogLevel where
  | debug | info | warning | error
deriving DecidableEq

structure LogEntry where
  level : LogLevel
  msg : String
deriving DecidableEq

/-- Outcome of the external `redis_client.publish` call. -/
inductive PublishOutcome where
  | ok : PublishOutcome
  | connectionError : PublishOutcome
  | otherError : String → PublishOutcome
deriving DecidableEq

/-- One `socketio.emit` call: event name and target room. -/
structure EmitEvent where
  event : String
  room : String
deriving DecidableEq

structure BroadcastResult where
  redis_available : Bool
  logs : List LogEntry
  emits : List EmitEvent
deriving DecidableEq

/-- `WebSocketService.broadcast_job_update`: given the service's
`redis_available` flag on entry and the outcome the publish call would
have, returns the flag after the call, the log entries and the emits. -/
def broadcast_job_update (redis_available : Bool) (publish : PublishOutcome)
    (job_id : Nat) : BroadcastResult :=
  let directEmits : List EmitEvent :=
    [{ event := "job_update", room := "job_" ++ toString job_id },
     { event := "job_update", room := "all_jobs" }]
  let debugEntry : LogEntry :=
    { level := LogLevel.debug,
      msg := "Broadcasting job update directly (Redis unavailable)" }
  if redis_available then
    match publish with
    | PublishOutcome.ok =>
        { redis_available := true, logs := [], emits := [] }
    | PublishOutcome.connectionError =>
        { redis_available := false,
          logs := [{ level := LogLevel.warning,
                     msg := "Redis connection lost during broadcast. Falling back to direct emit." },
                   debugEntry],
          emits := directEmits }
    | PublishOutcome.otherError e =>
        { redis_available := true,
          logs := [{ level := LogLevel.error,
                     msg := "Error publishing to Redis: " ++ e }],
          emits := [] }
  else
    { redis_available := false, logs := [debugEntry], emits := directEmits }

/-! ### Redis reconnection (`_retry_redis_connection`, lines 77-94, and
`__init__`, lines 20-28) -/

def max_redis_retries : Nat := 5

structure WSRetryState where
  redis_retry_count : Nat
  redis_available : Bool
deriving DecidableEq

/-- `_initialize_redis`: a successful connect marks Redis available and
resets the retry counter; a failed connect (any exception) only marks it
unavailable. -/
def initialize_redis (st : WSRetryState) (connectOk : Bool) : WSRetryState :=
  if connectOk then { redis_retry_count := 0, redis_available := true }
  else { st with redis_available := false }

/-- `_retry_redis_connection`: gives up (returns `False`, no wait) once
`redis_retry_count` has reached `max_redis_retries`; otherwise
increments the counter, sleeps `min(2 ** count, 60)` seconds, attempts
`_initialize_redis`, and returns the availability flag.  The middle
component is the slept delay, `none` when the call gave up without
waiting. -/
def retry_redis_connection (st : WSRetryState) (connectOk : Bool) :
    WSRetryState × Option Nat × Bool :=
  if st.redis_retry_count ≥ max_redis_retries then
    (st, none, false)
  else
    let count := st.redis_retry_count + 1
    let wait := min (2 ^ count) 60
    let st' := initialize_redis
      { st with redis_retry_count := count } connectOk
    (st', some wait, st'.redis_available)

/-- The delays slept by `n` successive `_retry_redis_connection` calls
that all fail to connect, stopping at the first call that gives up
without waiting. -/
def retryDelays : Nat → WSRetryState → List Nat
  | 0, _ => []
  | n + 1, st =>
      match retry_redis_connection st false with
      | (st', some w, _) => w :: retryDelays n st'
      | (_, none, _) => []

/-- The state of a freshly constructed `WebSocketService` whose initial
connection attempt failed (`redis_retry_count = 0`,
`redis_available = False`). -/
def initialRetryState : WSRetryState :=
  { redis_retry_count := 0, redis_available := false }

/-! ## Job creation
(`EnumerationService.start_enumeration`,
`app/services/enumeration.py` lines 24-40, and
`JobManager.start_data_normalization`,
`app/services/job_manager.py` lines 181-202)

Each create is modelled as its return value plus the ordered trace of
effects the service performs before returning.  `workerProcessing`
stands for any worker-side execution of the job's work; the create
functions hand the work off (`threading.Thread(...).start()` /
`normalize_domains_task.delay(...)`) and never run it themselves. -/

inductive CreateEvent where
  | persistJob : String → Nat → CreateEvent
  | enqueueWork : CreateEvent
  | persistTaskId : CreateEvent
  | workerProcessing : CreateEvent
deriving DecidableEq

/-- `EnumerationService.start_enumeration`: builds
`Job(type='domain_enumeration', domain=','.join(domains),
status='pending', progress=0)`, commits it, starts the background
thread, and returns the job. -/
def start_enumeration (newId : Nat) (domains : List String)
    (_sources : List String) : Job × List CreateEvent :=
  let job : Job :=
    { id := newId, type := "domain_enumeration",
      domain := some (String.intercalate "," domains),
      status := "pending", progress := 0,
      result := none, error_message := none }
  (job, [CreateEvent.persistJob "pending" 0, CreateEvent.enqueueWork])

/-- `JobManager.start_data_normalization`: commits
`Job(type='data_normalization', status='pending', progress=0)`, enqueues
`normalize_domains_task`, stores the returned task id in `job.result`,
commits again, and returns the job. -/
def start_data_normalization (newId : Nat) (taskId : String) :
    Job × List CreateEvent :=
  let job : Job :=
    { id := newId, type := "data_normalization", domain := none,
      status := "pending", progress := 0,
      result := none, error_message := none }
  let job' : Job :=
    { job with result := some (RawResult.decoded
        (JVal.jobj [("task_id", JVal.jstr taskId)])) }
  (job', [CreateEvent.persistJob "pending" 0, CreateEvent.enqueueWork,
          CreateEvent.persistTaskId])

/-! ## Formalised spec sentences under test

For the claims that fail on the code, the claim as written is first
formalised verbatim so its refutation can be stated; the repaired
statement is proved afterwards. -/

/-- The room a subscriber of one job's updates sits in
(`f"job_{job_id}"`). -/
def jobRoom (job_id : Nat) : String := "job_" ++ toString job_id

/-- The progress report the code actually emits for the pair at index
`k` of the iteration: `current` is the number of pairs already finished
(excluding the pair about to be processed), the percentage is computed
from that same count, and the metadata names the pair about to be
processed. -/
def emittedEvent (total : Nat) (ip : Nat × (String × String)) : ProgressEvent :=
  { current := ip.1, total := total, domain := ip.2.1, source := ip.2.2,
    progress := pyProgress ip.1 total }

/-- Claim C3 as stated: each pair's progress report carries
`completed` *including* the pair just processed — i.e. the report for
the pair at index `k` has `current = k + 1` and percentage
`(k+1)/total*100` — and names that pair. -/
def claimC3AsStated : Prop :=
  ∀ (j : Job) (domains sources : List String)
    (outcome : String → String → Except String (List DomainResult)),
    (enumerate_domains_task (some j) domains sources outcome none).events.length
      = domains.length * sources.length ∧
    ∀ k, k < domains.length * sources.length →
      (enumerate_domains_task (some j) domains sources outcome none).events[k]?
        = some { current := k + 1,
                 total := domains.length * sources.length,
                 domain := (((buildPairs domains sources)[k]?).getD ("", "")).1,
                 source := (((buildPairs domains sources)[k]?).getD ("", "")).2,
                 progress := pyProgress (k + 1)
                   (domains.length * sources.length) }

/-- Claim C4 as stated: a cycle of consecutive failed reconnection
attempts sleeps `2, 4, 8, 16, 32, 60` seconds. -/
def claimC4AsStated : Prop :=
  ∀ n, 6 ≤ n → retryDelays n initialRetryState = [2, 4, 8, 16, 32, 60]

/-- Claim C5 as stated: every broadcast call made while the broker is
unreachable (already marked unavailable, or the publish hits a
connection error) logs a degradation *warning* and delivers the event
exactly once to a same-process subscriber of the job's room. -/
def claimC5AsStated : Prop :=
  ∀ (avail : Bool) (publish : PublishOutcome) (job_id : Nat),
    (avail = false ∨ publish = PublishOutcome.connectionError) →
    (∃ e ∈ (broadcast_job_update avail publish job_id).logs,
        e.level = LogLevel.warning) ∧
    ((broadcast_job_update avail publish job_id).emits.filter
        (fun em => em.room = jobRoom job_id)).length = 1

/-! ## Concrete fixtures used to instantiate the theorems -/

/-- A job row with the given status and a stored task id. -/
def jobFixture (status : String) : Job :=
  { id := 1, type := "domain_enumeration", domain := some "a.com",
    status := status, progress := 10,
    result := some (RawResult.decoded
      (JVal.jobj [("task_id", JVal.jstr "t-1")])),
    error_message := none }

/-- A pair-processing oracle that raises on `virustotal` and succeeds
elsewhere. -/
def outcomeFixture : String → String → Except String (List DomainResult) :=
  fun d s =>
    if s = "virustotal" then Except.error "boom"
    else Except.ok [{ subdomain := "www." ++ d, source := s,
                      root_domain := d, existing := false }]

/-- A completed job whose stored result string does not decode. -/
def jobMalformed : Job :=
  { jobFixture "completed" with result := some (RawResult.malformed "not-json") }

/-! ## Helper lemmas -/

theorem getKey_popKey (fields : List (String × JVal)) (key : String) :
    JVal.getKey (JVal.popKey fields key) key = none := by
  induction fields with
  | nil => rfl
  | cons p rest ih =>
      obtain ⟨k, v⟩ := p
      by_cases hk : k = key
      · simpa [JVal.popKey, hk] using ih
      · simpa [JVal.popKey, JVal.getKey, hk] using ih

/-! ## Cancellation (claims C1 and C7) -/

/-- Claim C1: `cancel_job` on a `pending` or `running` job persists
`status='cancelled'` with `error_message` set and reports success; on a
job already in a terminal state (`completed`, `failed` or `cancelled`)
it reports a rejection and leaves every field of the row unchanged. -/
theorem cancel_job_lifecycle (j : Job) (revoke : RevokeOutcome) :
    ((j.status = "pending" ∨ j.status = "running") →
      cancel_job (some j) revoke
        = (some { j with status := "cancelled",
                         error_message := some "Job cancelled by user" },
           true)) ∧
    ((j.status = "completed" ∨ j.status = "failed" ∨ j.status = "cancelled") →
      cancel_job (some j) revoke = (some j, false)) := by
  constructor
  · intro h
    simp [cancel_job, h]
  · intro h
    have hne : ¬ (j.status = "pending" ∨ j.status = "running") := by
      rcases h with h | h | h <;> simp [h]
    simp [cancel_job, hne]

/-- Witness for C1: a running job is cancelled; a completed job is
rejected untouched. -/
theorem cancel_job_lifecycle_witness :
    cancel_job (some (jobFixture "running")) RevokeOutcome.success
      = (some { jobFixture "running" with
                  status := "cancelled",
                  error_message := some "Job cancelled by user" },
         true) ∧
    cancel_job (some (jobFixture "completed")) RevokeOutcome.success
      = (some (jobFixture "completed"), false) :=
  ⟨(cancel_job_lifecycle (jobFixture "running") RevokeOutcome.success).1
      (Or.inr rfl),
   (cancel_job_lifecycle (jobFixture "completed") RevokeOutcome.success).2
      (Or.inl rfl)⟩

/-- Claim C7: for a `pending` or `running` job the persisted
cancellation does not depend on the revoke call's outcome — success,
an exception from the queue, or a task id the queue no longer knows all
yield the same cancelled row and a success result. -/
theorem cancel_job_revoke_independent (j : Job) (r1 r2 : RevokeOutcome)
    (h : j.status = "pending" ∨ j.status = "running") :
    cancel_job (some j) r1 = cancel_job (some j) r2 ∧
    (cancel_job (some j) r1).2 = true ∧
    (cancel_job (some j) r1).1
      = some { j with status := "cancelled",
                      error_message := some "Job cancelled by user" } := by
  refine ⟨?_, ?_, ?_⟩ <;> simp [cancel_job, h]

/-- Witness for C7: revoking an unknown task id and a revoke that
raises both leave the same cancelled row. -/
theorem cancel_job_revoke_independent_witness :
    cancel_job (some (jobFixture "pending")) RevokeOutcome.unknownTaskId
      = cancel_job (some (jobFixture "pending"))
          (RevokeOutcome.raised "queue unreachable") ∧
    (cancel_job (some (jobFixture "pending"))
        RevokeOutcome.unknownTaskId).2 = true :=
  ⟨(cancel_job_revoke_independent (jobFixture "pending")
      RevokeOutcome.unknownTaskId (RevokeOutcome.raised "queue unreachable")
      (Or.inl rfl)).1,
   (cancel_job_revoke_independent (jobFixture "pending")
      RevokeOutcome.unknownTaskId (RevokeOutcome.raised "queue unreachable")
      (Or.inl rfl)).2.1⟩

/-! ## Result retrieval (claims C8 and C10) -/

/-- Claim C8: a completed job whose stored result does not decode as
JSON yields the defensive empty payload (`total_found = 0`,
`domains_found = []`) instead of a parse error. -/
theorem get_job_results_malformed_default (j : Job) (s : String)
    (hstatus : j.status = "completed")
    (hres : j.result = some (RawResult.malformed s)) :
    get_job_results (some j) = Except.ok (some emptyResultPayload) := by
  simp [get_job_results, hstatus, hres]

/-- Witness for C8. -/
theorem get_job_results_malformed_default_witness :
    get_job_results (some jobMalformed) = Except.ok (some emptyResultPayload) :=
  get_job_results_malformed_default jobMalformed "not-json" rfl rfl

/-- Claim C10: a job that is not `completed` yields no results at all,
and a completed job's returned payload never carries the internal
`task_id` key even when the stored result contains it. -/
theorem get_job_results_hides_task_id (j : Job) :
    (j.status ≠ "completed" → get_job_results (some j) = Except.ok none) ∧
    (∀ fields tid, j.status = "completed" →
      j.result = some (RawResult.decoded (JVal.jobj fields)) →
      JVal.getKey fields "task_id" = some tid →
      ∃ fields2, get_job_results (some j)
          = Except.ok (some (JVal.jobj fields2)) ∧
        JVal.getKey fields2 "task_id" = none) := by
  constructor
  · intro h
    simp [get_job_results, h]
  · intro fields tid hstatus hres _
    refine ⟨JVal.popKey fields "task_id", ?_, getKey_popKey fields "task_id"⟩
    simp [get_job_results, hstatus, hres]

/-- Witness for C10: a pending job yields nothing; a completed job with
a stored `task_id` yields a payload without it. -/
theorem get_job_results_hides_task_id_witness :
    get_job_results (some (jobFixture "pending")) = Except.ok none ∧
    ∃ fields2, get_job_results (some (jobFixture "completed"))
        = Except.ok (some (JVal.jobj fields2)) ∧
      JVal.getKey fields2 "task_id" = none :=
  ⟨(get_job_results_hides_task_id (jobFixture "pending")).1 (by decide),
   (get_job_results_hides_task_id (jobFixture "completed")).2
      [("task_id", JVal.jstr "t-1")] (JVal.jstr "t-1") rfl rfl rfl⟩

/-! ## Worker-loop characterisation -/

theorem runLoop_completed
    (outcome : String → String → Except String (List DomainResult))
    (total : Nat) :
    ∀ (pairs : List (String × String)) (st : LoopState),
      (runLoop outcome total pairs st).completed = st.completed + pairs.length := by
  intro pairs
  induction pairs with
  | nil => intro st; rfl
  | cons p rest ih =>
      intro st
      obtain ⟨d, s⟩ := p
      rw [runLoop, ih]
      simp [Nat.add_comm, Nat.add_assoc, Nat.add_left_comm]

theorem runLoop_events
    (outcome : String → String → Except String (List DomainResult))
    (total : Nat) :
    ∀ (pairs : List (String × String)) (st : LoopState),
      (runLoop outcome total pairs st).events
        = st.events ++ (List.enumFrom st.completed pairs).map (emittedEvent total) := by
  intro pairs
  induction pairs with
  | nil => intro st; simp [runLoop]
  | cons p rest ih =>
      intro st
      obtain ⟨d, s⟩ := p
      rw [runLoop, ih]
      simp [List.enumFrom_cons, emittedEvent]

theorem runLoop_progressWrites
    (outcome : String → String → Except String (List DomainResult))
    (total : Nat) :
    ∀ (pairs : List (String × String)) (st : LoopState),
      (runLoop outcome total pairs st).progressWrites
        = st.progressWrites
          ++ (List.enumFrom st.completed pairs).map (fun ip => pyProgress ip.1 total) := by
  intro pairs
  induction pairs with
  | nil => intro st; simp [runLoop]
  | cons p rest ih =>
      intro st
      obtain ⟨d, s⟩ := p
      rw [runLoop, ih]
      simp [List.enumFrom_cons]

theorem buildPairs_length (domains sources : List String) :
    (buildPairs domains sources).length = domains.length * sources.length := by
  induction domains with
  | nil => simp [buildPairs]
  | cons d rest ih =>
      simp only [buildPairs, List.flatMap_cons, List.length_append,
        List.length_map, List.length_cons] at ih ⊢
      rw [ih, Nat.succ_mul, Nat.add_comm]

theorem pyProgress_mono (total : Nat) {a b : Nat} (h : a ≤ b) :
    pyProgress a total ≤ pyProgress b total :=
  Nat.div_le_div_right (Nat.mul_le_mul_right 100 h)

theorem loopWrites_pairwise (pairs : List (String × String)) (total : Nat) :
    List.Pairwise (· ≤ ·)
      ((List.enumFrom 0 pairs).map (fun ip => pyProgress ip.1 total)) := by
  have h1 : (List.enumFrom 0 pairs).map (fun ip => pyProgress ip.1 total)
      = ((List.enumFrom 0 pairs).map Prod.fst).map (fun i => pyProgress i total) := by
    rw [List.map_map]
    rfl
  rw [h1, List.enumFrom_map_fst]
  exact (List.pairwise_le_range' 0 pairs.length).map _
    (fun a b hab => pyProgress_mono total hab)

/-! ## Worker failure policy (claim C2) -/

/-- Claim C2: every (target, source) pair is visited and counted toward
`completed_tasks` whether or not its processing raises (the per-pair
handler catches the exception and the loop continues), and the job ends
`failed` with `error_message` set exactly when an exception escapes the
loop (modelled by `postLoopExc`); otherwise it ends `completed`. -/
theorem enumerate_failure_policy (j : Job) (domains sources : List String)
    (outcome : String → String → Except String (List DomainResult))
    (postLoopExc : Option String) :
    (enumerate_domains_task (some j) domains sources outcome
        postLoopExc).completedTasks = domains.length * sources.length ∧
    (enumerate_domains_task (some j) domains sources outcome
        postLoopExc).events.length = domains.length * sources.length ∧
    ((∃ jf, (enumerate_domains_task (some j) domains sources outcome
        postLoopExc).finalJob = some jf ∧ jf.status = "failed")
      ↔ postLoopExc ≠ none) ∧
    (∀ e, postLoopExc = some e →
      ∃ jf, (enumerate_domains_task (some j) domains sources outcome
          postLoopExc).finalJob = some jf ∧ jf.status = "failed" ∧
        jf.error_message = some e) ∧
    (postLoopExc = none →
      ∃ jf, (enumerate_domains_task (some j) domains sources outcome
          postLoopExc).finalJob = some jf ∧ jf.status = "completed" ∧
        jf.progress = 100) := by
  have hc := runLoop_completed outcome (domains.length * sources.length)
    (buildPairs domains sources)
    { completed := 0, results := [], events := [], progressWrites := [],
      curProgress := 0 }
  have he := runLoop_events outcome (domains.length * sources.length)
    (buildPairs domains sources)
    { completed := 0, results := [], events := [], progressWrites := [],
      curProgress := 0 }
  cases postLoopExc with
  | none =>
      refine ⟨?_, ?_, ?_, ?_, ?_⟩
      · simpa [enumerate_domains_task, buildPairs_length] using hc
      · simp [enumerate_domains_task, he, buildPairs_length]
      · constructor
        · rintro ⟨jf, hjf, hst⟩
          simp [enumerate_domains_task] at hjf
          rw [← hjf] at hst
          simp at hst
        · intro h
          simp at h
      · intro e h
        simp at h
      · intro _
        exact ⟨_, rfl, rfl, rfl⟩
  | some e0 =>
      refine ⟨?_, ?_, ?_, ?_, ?_⟩
      · simpa [enumerate_domains_task, buildPairs_length] using hc
      · simp [enumerate_domains_task, he, buildPairs_length]
      · constructor
        · intro _
          simp
        · intro _
          exact ⟨_, rfl, rfl⟩
      · intro e he2
        cases he2
        exact ⟨_, rfl, rfl, rfl⟩
      · intro h
        simp at h

/-- Witness for C2: two pairs, one of which raises, still count 2 of 2;
a post-loop exception marks the job failed, a clean run completes. -/
theorem enumerate_failure_policy_witness :
    (enumerate_domains_task (some (jobFixture "pending")) ["a.com"]
        ["crt.sh", "virustotal"] outcomeFixture none).completedTasks = 2 ∧
    (∃ jf, (enumerate_domains_task (some (jobFixture "pending")) ["a.com"]
        ["crt.sh", "virustotal"] outcomeFixture
        (some "db down")).finalJob = some jf ∧ jf.status = "failed" ∧
      jf.error_message = some "db down") ∧
    (∃ jf, (enumerate_domains_task (some (jobFixture "pending")) ["a.com"]
        ["crt.sh", "virustotal"] outcomeFixture none).finalJob = some jf ∧
      jf.status = "completed" ∧ jf.progress = 100) :=
  ⟨(enumerate_failure_policy (jobFixture "pending") ["a.com"]
      ["crt.sh", "virustotal"] outcomeFixture none).1,
   (enumerate_failure_policy (jobFixture "pending") ["a.com"]
      ["crt.sh", "virustotal"] outcomeFixture (some "db down")).2.2.2.1
      "db down" rfl,
   (enumerate_failure_policy (jobFixture "pending") ["a.com"]
      ["crt.sh", "virustotal"] outcomeFixture none).2.2.2.2 rfl⟩

/-! ## Progress reporting (claims C3 and C9) -/

/-- Counterexample for claim C3 as stated: with a single (target,
source) pair the only progress report the Worker emits fires *before*
the pair with `current = 0` and percentage `0`; no report with the
claimed post-pair percentage `100` ever fires. -/
theorem claimC3_refuted : ¬ claimC3AsStated := by
  intro h
  have h0 := (h (jobFixture "pending") ["a.com"] ["crt.sh"]
      (fun _ _ => Except.ok [])).2 0 (by decide)
  exact absurd h0 (by decide)

theorem enumerate_events_eq (j : Job) (domains sources : List String)
    (outcome : String → String → Except String (List DomainResult))
    (postLoopExc : Option String) :
    (enumerate_domains_task (some j) domains sources outcome
        postLoopExc).events
      = (List.enumFrom 0 (buildPairs domains sources)).map
          (emittedEvent (domains.length * sources.length)) := by
  have he := runLoop_events outcome (domains.length * sources.length)
    (buildPairs domains sources)
    { completed := 0, results := [], events := [], progressWrites := [],
      curProgress := 0 }
  cases postLoopExc <;> simp [enumerate_domains_task, he]

/-- Amended claim C3: a progress report fires *before* every processed
pair (not after); its `current` field counts the pairs already finished
*excluding* the pair about to be processed — the percentage
`int((completed/total)*100)` the code derives is computed from that
pre-increment count — and its metadata names the pair about to be
processed.  The first report's percentage is exactly 0 (the value
`int((0/total)*100)` is float-exact for every `total`), and no progress
report follows the final pair — completion is signalled by a separate
`completed` broadcast.  The report's exact percentage at later indices
is not asserted here, since Python computes it through IEEE floats. -/
theorem progress_reports_before_each_pair (j : Job)
    (domains sources : List String)
    (outcome : String → String → Except String (List DomainResult))
    (postLoopExc : Option String) :
    (enumerate_domains_task (some j) domains sources outcome
        postLoopExc).events.length = domains.length * sources.length ∧
    (∀ k, k < domains.length * sources.length →
      ∃ ev, (enumerate_domains_task (some j) domains sources outcome
          postLoopExc).events[k]? = some ev ∧
        ev.current = k ∧
        ev.total = domains.length * sources.length ∧
        ev.domain = (((buildPairs domains sources)[k]?).getD ("", "")).1 ∧
        ev.source = (((buildPairs domains sources)[k]?).getD ("", "")).2) ∧
    (∀ ev, (enumerate_domains_task (some j) domains sources outcome
        postLoopExc).events[0]? = some ev → ev.progress = 0) := by
  refine ⟨?_, ?_, ?_⟩
  · rw [enumerate_events_eq]
    simp [buildPairs_length]
  · intro k hk
    have hk2 : k < (buildPairs domains sources).length := by
      rw [buildPairs_length]
      exact hk
    rw [enumerate_events_eq]
    refine ⟨emittedEvent (domains.length * sources.length)
        (k, (buildPairs domains sources)[k]), ?_, rfl, rfl, ?_, ?_⟩
    · simp [List.getElem?_map, List.getElem?_enumFrom,
        List.getElem?_eq_getElem hk2, emittedEvent]
    · simp [List.getElem?_eq_getElem hk2, emittedEvent]
    · simp [List.getElem?_eq_getElem hk2, emittedEvent]
  · intro ev hev
    rw [enumerate_events_eq] at hev
    cases hpairs : buildPairs domains sources with
    | nil =>
        rw [hpairs] at hev
        simp at hev
    | cons p rest =>
        rw [hpairs] at hev
        simp [List.enumFrom_cons, emittedEvent] at hev
        rw [← hev]
        simp [pyProgress]

/-- Witness for the amended C3: with two pairs the second report fires
before the second pair, counting one finished pair and naming the
second pair; the first report's percentage is 0. -/
theorem progress_reports_before_each_pair_witness :
    (∃ ev, (enumerate_domains_task (some (jobFixture "pending")) ["a.com"]
        ["crt.sh", "virustotal"] outcomeFixture none).events[1]? = some ev ∧
      ev.current = 1 ∧ ev.total = 2 ∧ ev.domain = "a.com" ∧
      ev.source = "virustotal") ∧
    (∀ ev, (enumerate_domains_task (some (jobFixture "pending")) ["a.com"]
        ["crt.sh", "virustotal"] outcomeFixture none).events[0]? = some ev →
      ev.progress = 0) := by
  have h := progress_reports_before_each_pair (jobFixture "pending") ["a.com"]
      ["crt.sh", "virustotal"] outcomeFixture none
  refine ⟨?_, h.2.2⟩
  have h1 := h.2.1 1 (by decide)
  simpa [buildPairs] using h1

/-- Claim C9: the successive values the Worker writes to `progress`
while the job's status is `running` (the initial 0 and one write per
pair) form a monotonically non-decreasing sequence; the write of 100
happens together with the transition to `completed`, outside the
running phase. -/
theorem progress_monotone_while_running (j : Job)
    (domains sources : List String)
    (outcome : String → String → Except String (List DomainResult))
    (postLoopExc : Option String) :
    List.Pairwise (· ≤ ·)
      ((enumerate_domains_task (some j) domains sources outcome
          postLoopExc).runningProgressWrites) := by
  have hw := runLoop_progressWrites outcome (domains.length * sources.length)
    (buildPairs domains sources)
    { completed := 0, results := [], events := [], progressWrites := [],
      curProgress := 0 }
  cases postLoopExc
  all_goals
    simp only [enumerate_domains_task, hw, List.nil_append]
    exact List.Pairwise.cons (fun b _ => Nat.zero_le b)
      (loopWrites_pairwise _ _)

/-! ## Reconnection backoff (claim C4) -/

/-- Counterexample for claim C4 as stated: the retry counter is
incremented before the delay is computed and the cycle refuses a sixth
attempt, so a failing cycle sleeps `2, 4, 8, 16, 32` — the capped
60-second delay is never reached. -/
theorem claimC4_refuted : ¬ claimC4AsStated := by
  intro h
  have h6 := h 6 (by decide)
  exact absurd h6 (by decide)

theorem retryDelays_exhausted (m : Nat) :
    retryDelays m { redis_retry_count := 5, redis_available := false } = [] := by
  cases m with
  | zero => rfl
  | succ m => rfl

/-- Amended claim C4: each reconnection attempt that is not refused
sleeps exactly `min(2^count, 60)` seconds where `count` is the
just-incremented retry counter; consecutive failed attempts from a
fresh state therefore sleep `2, 4, 8, 16, 32`, and retrying ceases
after the 5th consecutive failure (a further call returns `False`
without sleeping), so the 60-second cap is never exercised. -/
theorem retry_backoff_five_attempts :
    (∀ (st : WSRetryState) (connectOk : Bool),
      st.redis_retry_count < max_redis_retries →
      (retry_redis_connection st connectOk).2.1
        = some (min (2 ^ (st.redis_retry_count + 1)) 60)) ∧
    (∀ n, 5 ≤ n → retryDelays n initialRetryState = [2, 4, 8, 16, 32]) ∧
    [2, 4, 8, 16, 32] = (List.range 5).map (fun i => min (2 ^ (i + 1)) 60) ∧
    (∀ st : WSRetryState, max_redis_retries ≤ st.redis_retry_count →
      retry_redis_connection st false = (st, none, false)) := by
  refine ⟨?_, ?_, by decide, ?_⟩
  · intro st connectOk hlt
    simp [retry_redis_connection, Nat.not_le.mpr hlt]
  · intro n hn
    obtain ⟨k, hk⟩ := Nat.exists_eq_add_of_le hn
    subst hk
    rw [Nat.add_comm]
    simp [retryDelays, retry_redis_connection, initialize_redis,
      max_redis_retries, initialRetryState, retryDelays_exhausted]
  · intro st hst
    simp [retry_redis_connection, hst]

/-- Witness for the amended C4: the third attempt of a failing cycle
sleeps `min(2^3, 60) = 8`, a long failing cycle sleeps exactly
`2, 4, 8, 16, 32`, and the exhausted state refuses to wait. -/
theorem retry_backoff_five_attempts_witness :
    (retry_redis_connection
        { redis_retry_count := 2, redis_available := false } false).2.1
      = some 8 ∧
    retryDelays 7 initialRetryState = [2, 4, 8, 16, 32] ∧
    retry_redis_connection
        { redis_retry_count := 5, redis_available := false } false
      = ({ redis_retry_count := 5, redis_available := false }, none, false) :=
  ⟨retry_backoff_five_attempts.1
      { redis_retry_count := 2, redis_available := false } false (by decide),
   retry_backoff_five_attempts.2.1 7 (by decide),
   retry_backoff_five_attempts.2.2.2
      { redis_retry_count := 5, redis_available := false } (by decide)⟩

/-! ## Degraded broadcast (claim C5) -/

theorem all_jobs_ne_prefixed (jid : Nat) :
    ("all_jobs" : String) ≠ "job_" ++ toString jid := by
  intro h
  have h2 := congrArg (fun s => s.data.head?) h
  simp [String.data_append] at h2

/-- Counterexample for claim C5 as stated: a broadcast made while the
broker is already marked unavailable logs the degradation at *debug*
level only — no warning is logged on that call. -/
theorem claimC5_refuted : ¬ claimC5AsStated := by
  intro h
  have h1 := (h false PublishOutcome.ok 1 (Or.inl rfl)).1
  exact absurd h1 (by decide)

/-- Amended claim C5: a broadcast while the broker is unreachable never
raises, ends with Redis marked unavailable, and emits the event exactly
once to the job's room (and once to `all_jobs`); the degradation
warning is logged on the call that detects the connection loss, while a
call made when the broker is already marked unavailable logs the
degradation at debug level. -/
theorem broadcast_degraded_delivery (avail : Bool) (publish : PublishOutcome)
    (job_id : Nat)
    (h : avail = false ∨ publish = PublishOutcome.connectionError) :
    ((broadcast_job_update avail publish job_id).emits.filter
        (fun em => em.room = jobRoom job_id)).length = 1 ∧
    ((broadcast_job_update avail publish job_id).emits.filter
        (fun em => em.room = "all_jobs")).length = 1 ∧
    (broadcast_job_update avail publish job_id).redis_available = false ∧
    (avail = true → ∃ e ∈ (broadcast_job_update avail publish job_id).logs,
        e.level = LogLevel.warning) ∧
    (avail = false → ∃ e ∈ (broadcast_job_update avail publish job_id).logs,
        e.level = LogLevel.debug) := by
  have hne := all_jobs_ne_prefixed job_id
  cases avail with
  | false =>
      refine ⟨?_, ?_, rfl, fun hc => absurd hc (by decide), fun _ => ?_⟩
      · simp [broadcast_job_update, jobRoom, hne, Ne.symm hne]
      · simp [broadcast_job_update, jobRoom, hne, Ne.symm hne]
      · simp [broadcast_job_update]
  | true =>
      have hpub : publish = PublishOutcome.connectionError := by
        rcases h with h | h
        · cases h
        · exact h
      subst hpub
      refine ⟨?_, ?_, rfl, fun _ => ?_, fun hc => absurd hc (by decide)⟩
      · simp [broadcast_job_update, jobRoom, hne, Ne.symm hne]
      · simp [broadcast_job_update, jobRoom, hne, Ne.symm hne]
      · simp [broadcast_job_update]

/-- Witness for the amended C5: both the detecting call and a call in
the already-degraded state deliver exactly once to the job room. -/
theorem broadcast_degraded_delivery_witness :
    ((broadcast_job_update true PublishOutcome.connectionError 7).emits.filter
        (fun em => em.room = jobRoom 7)).length = 1 ∧
    ((broadcast_job_update false PublishOutcome.ok 7).emits.filter
        (fun em => em.room = jobRoom 7)).length = 1 :=
  ⟨(broadcast_degraded_delivery true PublishOutcome.connectionError 7
      (Or.inr rfl)).1,
   (broadcast_degraded_delivery false PublishOutcome.ok 7 (Or.inl rfl)).1⟩

/-! ## Job creation (claim C6) -/

/-- Claim C6: both create operations return a Job with
`status='pending'` and `progress=0`; the pending row is persisted
strictly before the work is handed off to the queue, and the create
itself never executes any worker-side processing. -/
theorem create_returns_pending_job (newId : Nat)
    (domains sources : List String) (taskId : String) :
    (start_enumeration newId domains sources).1.status = "pending" ∧
    (start_enumeration newId domains sources).1.progress = 0 ∧
    (∃ i k : Nat, i < k ∧
      (start_enumeration newId domains sources).2[i]?
        = some (CreateEvent.persistJob "pending" 0) ∧
      (start_enumeration newId domains sources).2[k]?
        = some CreateEvent.enqueueWork) ∧
    CreateEvent.workerProcessing ∉ (start_enumeration newId domains sources).2 ∧
    (start_data_normalization newId taskId).1.status = "pending" ∧
    (start_data_normalization newId taskId).1.progress = 0 ∧
    (∃ i k : Nat, i < k ∧
      (start_data_normalization newId taskId).2[i]?
        = some (CreateEvent.persistJob "pending" 0) ∧
      (start_data_normalization newId taskId).2[k]?
        = some CreateEvent.enqueueWork) ∧
    CreateEvent.workerProcessing ∉ (start_data_normalization newId taskId).2 := by
  refine ⟨rfl, rfl, ⟨0, 1, by decide, rfl, rfl⟩, by simp [start_enumeration],
    rfl, rfl, ⟨0, 1, by decide, rfl, rfl⟩, by simp [start_data_normalization]⟩

end Bigshot
